import Mathlib

/-!
Shallow embedding of the audio capture engine of `src/result_thread.py`
(class `ResultThread`): the run/stop signal protocol, the direct-mode
recording callback and loop, the VAD-mode per-frame loop with its
silence/speech state machine and finalization policy, and the bounded
handoff buffer between the audio callback thread and the capture worker.
-/

set_option autoImplicit false

namespace WhisperWriter

/-! ## Status signals and session events

`statusSignal` carries one of the strings emitted by `ResultThread`
('recording', 'transcribing', 'idle', 'error'); `resultSignal` carries the
transcription result payload. -/

inductive Status where
  | recording
  | transcribing
  | idle
  | error
  deriving DecidableEq, Repr

inductive Ev where
  | status (s : Status)
  | result (r : String)
  deriving DecidableEq, Repr

/-- A terminal status in the sense of the session protocol: 'idle' or 'error'. -/
def isTerminal : Ev → Bool
  | .status .idle => true
  | .status .error => true
  | _ => false

/-- A result payload event (an emission of `resultSignal`). -/
def isResultEv : Ev → Bool
  | .result _ => true
  | _ => false

def countTerminal (es : List Ev) : Nat := (es.filter isTerminal).length

def countResult (es : List Ev) : Nat := (es.filter isResultEv).length

/-! ## The run/stop protocol of `ResultThread.run` (lines 67-115) and
`ResultThread.stop` (lines 59-65)

`run` reads `self.is_running` at three places: line 70 (before starting),
line 86 (after `_record_audio` returns) and line 104 (after `transcribe`
returns).  `stop` flips `is_running` to `False` and immediately emits the
status 'idle' itself.  `StopPoint` records where, relative to those reads,
an external `stop()` call lands (if at all). -/

inductive StopPoint where
  /-- `stop()` happens before the read at line 70. -/
  | beforeStart
  /-- `stop()` happens while `_record_audio` runs: the read at line 86 sees `False`. -/
  | duringRecord
  /-- `stop()` happens while `transcribe` runs: the read at line 104 (when it is
  reached) sees `False`; only meaningful when audio was returned. -/
  | duringTranscribe
  /-- `stop()` happens after the last `is_running` read of the path, before
  `run` returns: every read saw `True` but the shutdown 'idle' is still emitted
  during the session. -/
  | duringEmit
  /-- `stop()` is never called during the session. -/
  | never
  deriving DecidableEq, Repr

def runningAtStart : StopPoint → Bool
  | .beforeStart => false
  | _ => true

def runningAfterRecord : StopPoint → Bool
  | .beforeStart => false
  | .duringRecord => false
  | _ => true

def runningAfterTranscribe : StopPoint → Bool
  | .duringEmit => true
  | .never => true
  | _ => false

/-- One execution path of `ResultThread.run`: when (if ever) `stop()` landed,
what `_record_audio` returned, whether `transcribe` succeeded, and the
transcript it produced when it did. -/
structure RunInput where
  stopAt : StopPoint
  audioResult : Option (List Int)
  transcribeOk : Bool
  transcript : String
  deriving DecidableEq, Repr

/-- A `stopAt` of `duringTranscribe` only makes sense when `_record_audio`
returned audio (otherwise `transcribe` is never running). -/
def wfRun (i : RunInput) : Prop :=
  i.stopAt = StopPoint.duringTranscribe → i.audioResult ≠ none

instance (i : RunInput) : Decidable (wfRun i) := by
  unfold wfRun; infer_instance

/-- The events `ResultThread.run` (lines 67-115) emits on a given path:
 - line 70: return (nothing emitted) when already stopped;
 - line 78: emit 'recording';
 - lines 86-87: return when stopped during recording;
 - lines 89-91: emit 'idle' and return when `_record_audio` gave `None`;
 - line 93: emit 'transcribing';
 - lines 110-113: on an exception from `transcribe`, emit 'error' and an
   empty result (the `except` clause runs regardless of `is_running`);
 - lines 104-108: if still running, emit 'idle' and the result payload. -/
def runEmits (i : RunInput) : List Ev :=
  if !runningAtStart i.stopAt then []
  else
    Ev.status .recording ::
      (if !runningAfterRecord i.stopAt then []
       else
         match i.audioResult with
         | none => [Ev.status .idle]
         | some _ =>
           Ev.status .transcribing ::
             (if !i.transcribeOk then [Ev.status .error, Ev.result ""]
              else if !runningAfterTranscribe i.stopAt then []
              else [Ev.status .idle, Ev.result i.transcript]))

/-- `ResultThread.stop` (lines 59-65) emits 'idle' whenever it is called. -/
def stopEmits (i : RunInput) : List Ev :=
  if i.stopAt = StopPoint.never then [] else [Ev.status .idle]

/-- All events emitted for one session: those of `run` plus the 'idle' that a
concurrent `stop()` contributes (order between the two streams is immaterial
for counting). -/
def sessionEmits (i : RunInput) : List Ev :=
  runEmits i ++ stopEmits i

/-- The combinations on which two terminal statuses get emitted: `stop()`
landing after the final `is_running` read of the path, or during a
transcription that subsequently raises. -/
def doubleEmit (i : RunInput) : Bool :=
  i.stopAt == StopPoint.duringEmit ||
    (i.stopAt == StopPoint.duringTranscribe && !i.transcribeOk)

/-! ## Control flags (lines 46-57, 73-76, 115, 367-372)

`stop_recording` (lines 52-57) clears both `is_recording` and
`ready_to_record`; `run`'s `finally` clause (line 115) calls it on every
exit path. -/

structure Flags where
  is_recording : Bool
  ready_to_record : Bool
  deriving DecidableEq, Repr

/-- `ResultThread.stop_recording` (lines 52-57). -/
def stop_recording (_f : Flags) : Flags := ⟨false, false⟩

/-- The flag state at the end of `run`'s `try` body, before the `finally`
clause: if `run` returned at line 71 the flags were never touched (they are
`False` from `__init__`, lines 46-47); otherwise lines 73-76 set
`is_recording := True`, a concurrent `set_ready` (lines 367-372) may set
`ready_to_record := True`, and a concurrent external `stop_recording` call
clears both. -/
def bodyFlags (i : RunInput) (readyDuring externalStop : Bool) : Flags :=
  if !runningAtStart i.stopAt then ⟨false, false⟩
  else
    let f1 : Flags := ⟨true, false⟩
    let f2 := if readyDuring then { f1 with ready_to_record := true } else f1
    if externalStop then stop_recording f2 else f2

/-- The flags after `run` returns: the `finally` clause (lines 114-115)
applies `stop_recording` to whatever the body left. -/
def runFinalFlags (i : RunInput) (readyDuring externalStop : Bool) : Flags :=
  stop_recording (bodyFlags i readyDuring externalStop)

/-! ## Direct-mode recording (lines 156-223)

For `press_to_toggle` / `hold_to_record` the code preallocates
`buffer_size = int(sample_rate * record_seconds)` samples, appends each
callback block when `ready_to_record` holds (doubling `buffer_size` when the
block would overflow it, lines 177-184), and loops while
`frames_recorded < buffer_size` (line 200). -/

/-- One invocation of the direct-mode audio callback: the value of
`self.ready_to_record` at that moment, and the samples delivered. -/
structure DirectBlock where
  ready : Bool
  samples : List Int
  deriving DecidableEq, Repr

structure DirectState where
  bufferSize : Nat
  framesRecorded : Nat
  data : List Int
  deriving DecidableEq, Repr

/-- Initial direct-mode state (lines 163-165): capacity
`int(sample_rate * record_seconds)`, nothing recorded. -/
def directInit (maxSamples : Nat) : DirectState := ⟨maxSamples, 0, []⟩

/-- The direct-mode `callback` (lines 168-188): drop the block unless
`ready_to_record`; double the capacity if the block would overflow it;
append the samples and advance `frames_recorded`. -/
def directCallback (st : DirectState) (b : DirectBlock) : DirectState :=
  if !b.ready then st
  else
    let n := b.samples.length
    let st1 :=
      if st.framesRecorded + n > st.bufferSize
      then { st with bufferSize := st.bufferSize * 2 }
      else st
    { st1 with
        data := st1.data ++ b.samples,
        framesRecorded := st1.framesRecorded + n }

/-- The direct-mode polling loop (lines 200-201): blocks are handed to the
callback as long as `frames_recorded < buffer_size` (the shared, possibly
doubled capacity).  Exhausting the block list models an external
stop/shutdown ending the loop. -/
def directLoop (st : DirectState) : List DirectBlock → DirectState
  | [] => st
  | b :: bs =>
    if st.framesRecorded < st.bufferSize
    then directLoop (directCallback st b) bs
    else st

/-- The minimum-duration check shared by both modes (lines 213-219 and
326-330): with `duration = len(data) / sample_rate`, discard when
`duration * 1000 < min_duration_ms`, i.e. when
`len(data) * 1000 < min_duration_ms * sample_rate`. -/
def directFinalize (sampleRate minDurationMs : Nat) (data : List Int) :
    Option (List Int) :=
  if data.length * 1000 < minDurationMs * sampleRate then none else some data

/-- The whole direct-mode body of `_record_audio` (lines 190-223): any
exception — in particular the input stream failing to open — is caught and
turned into `None` (lines 221-223). -/
def recordDirect (openOk : Bool) (sampleRate minDurationMs : Nat)
    (st : DirectState) (blocks : List DirectBlock) : Option (List Int) :=
  if !openOk then none
  else directFinalize sampleRate minDurationMs (directLoop st blocks).data

/-! ## VAD-mode recording (lines 225-343)

All modes other than `press_to_toggle` / `hold_to_record` run the VAD loop:
every consumed frame is appended to `recording_data` unconditionally
(line 282 — `ready_to_record` is never consulted on this path), classified
(line 287), and the loop breaks on enough post-speech silence (line 302) or
on the 30 s no-speech timeout (lines 310-314). -/

inductive FrameClass where
  /-- `vad.is_speech` returned `True`. -/
  | speech
  /-- `vad.is_speech` returned `False`. -/
  | silence
  /-- `vad.is_speech` raised; caught at lines 306-308. -/
  | vadError
  deriving DecidableEq, Repr

/-- One 30 ms frame as consumed by the VAD loop: its classification outcome,
the value `self.ready_to_record` had when it arrived (never read by this
path), its samples, and the wall-clock milliseconds elapsed since
`recording_start_time` when the timeout check (line 311) runs for it. -/
structure VadFrame where
  cls : FrameClass
  ready : Bool
  samples : List Int
  elapsedMs : Nat
  deriving DecidableEq, Repr

structure VadState where
  speechDetected : Bool
  silentFrameCount : Nat
  recordingData : List Int
  framesProcessed : Nat
  deriving DecidableEq, Repr

/-- Initial VAD loop state (lines 237-240). -/
def vadInit : VadState := ⟨false, 0, [], 0⟩

/-- `silence_frames = int(silence_duration_ms / frame_duration_ms)` with
`frame_duration_ms = 30` (lines 230-233).  Python `int()` truncates, which
for nonnegative values is the floor, i.e. natural division. -/
def silenceFramesOf (silenceDurationMs : Nat) : Nat := silenceDurationMs / 30

/-- Modelled from the spec words (section 3, DetectionState):
`silenceThresholdFrames = round(silenceDurationMs / frameDurationMs)` with
`frameDurationMs = 30`, rounding half up. -/
def specRoundThreshold (silenceDurationMs : Nat) : Nat :=
  (2 * silenceDurationMs + 30) / 60

/-- One iteration of the VAD loop body for one frame (lines 278-314):
append the frame to the recording (line 282), update the speech/silence
state (lines 287-299) unless the classifier raised, break on enough
post-speech silence (lines 302-304), then break on the 30 s no-speech
timeout (lines 310-314).  Returns the new state and whether the loop broke. -/
def vadStep (thresh : Nat) (st : VadState) (f : VadFrame) : VadState × Bool :=
  let st0 : VadState :=
    { st with
        recordingData := st.recordingData ++ f.samples,
        framesProcessed := st.framesProcessed + 1 }
  let stepped : VadState × Bool :=
    match f.cls with
    | .speech =>
      let st1 := { st0 with silentFrameCount := 0, speechDetected := true }
      (st1, decide (st1.silentFrameCount ≥ thresh))
    | .silence =>
      let st1 :=
        if st0.speechDetected
        then { st0 with silentFrameCount := st0.silentFrameCount + 1 }
        else st0
      (st1, st1.speechDetected && decide (st1.silentFrameCount ≥ thresh))
    | .vadError => (st0, false)
  if stepped.2 then (stepped.1, true)
  else if decide (f.elapsedMs > 30000) && !stepped.1.speechDetected
  then (stepped.1, true)
  else (stepped.1, false)

/-- The VAD recording loop (lines 268-314) at frame granularity: frames are
consumed until the loop breaks; exhausting the list models an external
stop/shutdown ending the loop (line 268).  Returns the final state and
whether the loop ended by breaking. -/
def vadLoop (thresh : Nat) (st : VadState) : List VadFrame → VadState × Bool
  | [] => (st, false)
  | f :: fs =>
    let r := vadStep thresh st f
    if r.2 then (r.1, true) else vadLoop thresh r.1 fs

/-- VAD-mode finalization (lines 326-337): discard when shorter than
`min_duration`; then, only when `recording_mode` is exactly the string
`voice_activity_detection`, discard when no speech was ever detected;
otherwise return the buffer. -/
def vadFinalize (recording_mode : String) (sampleRate minDurationMs : Nat)
    (speechDetected : Bool) (data : List Int) : Option (List Int) :=
  if data.length * 1000 < minDurationMs * sampleRate then none
  else if recording_mode == "voice_activity_detection" && !speechDetected
  then none
  else some data

/-- The whole VAD-mode body of `_record_audio` (lines 257-343): any
exception — in particular the input stream failing to open — is caught and
turned into `None` (lines 339-343); otherwise the loop runs and the result
is finalized. -/
def recordVad (openOk : Bool) (recording_mode : String)
    (sampleRate minDurationMs thresh : Nat) (frames : List VadFrame) :
    Option (List Int) :=
  if !openOk then none
  else
    let st := (vadLoop thresh vadInit frames).1
    vadFinalize recording_mode sampleRate minDurationMs
      st.speechDetected st.recordingData

/-! ## The callback/worker handoff buffer (lines 243-283)

`audio_buffer = deque(maxlen=frame_size)` (line 247): the callback extends
it with every incoming block, silently evicting the oldest samples once
`frame_size` is exceeded; the worker consumes it wholesale when it holds at
least `frame_size` samples (lines 274-279). -/

/-- The last `n` elements of a list — the contents of a `deque` with
`maxlen = n` after extending it. -/
def takeLastN (n : Nat) (xs : List Int) : List Int := xs.drop (xs.length - n)

inductive HEv where
  /-- The audio callback fires with a block of samples (lines 250-255). -/
  | arrive (samples : List Int)
  /-- The worker wakes and runs one iteration of lines 270-283:
  skip when fewer than `frame_size` samples are buffered, else move the
  buffered frame into `recording_data` and clear the buffer. -/
  | consume
  deriving DecidableEq, Repr

structure HState where
  buf : List Int
  recorded : List Int
  deriving DecidableEq, Repr

def hstep (frameSize : Nat) (st : HState) : HEv → HState
  | .arrive xs => { st with buf := takeLastN frameSize (st.buf ++ xs) }
  | .consume =>
    if st.buf.length < frameSize then st
    else { buf := [], recorded := st.recorded ++ st.buf }

/-- Run one interleaving of callback and worker events. -/
def hrun (frameSize : Nat) (st : HState) : List HEv → HState
  | [] => st
  | e :: es => hrun frameSize (hstep frameSize st e) es

/-- All samples the audio backend delivered over a trace, in arrival order. -/
def arrivedSamples : List HEv → List Int
  | [] => []
  | .arrive xs :: es => xs ++ arrivedSamples es
  | .consume :: es => arrivedSamples es

/-- The schedule in which the worker consumes right after every callback:
each delivered block is immediately followed by one worker iteration. -/
def altTrace : List (List Int) → List HEv
  | [] => []
  | xs :: rest => HEv.arrive xs :: HEv.consume :: altTrace rest

/-! ## Concrete frames for the specified scenarios

At `sample_rate = 16000` a 30 ms frame holds 480 samples. -/

/-- A 30 ms frame classified as speech, arriving 1 s into the capture. -/
def speechFrameS : VadFrame := ⟨.speech, true, List.replicate 480 0, 1000⟩

/-- A 30 ms frame classified as silence, arriving 2 s into the capture. -/
def silentFrameS : VadFrame := ⟨.silence, true, List.replicate 480 0, 2000⟩

/-- The claim C6 scenario frame stream: 5 speech frames, then 30 silent
frames, then one further silent frame that must never be consumed. -/
def scenFrames : List VadFrame :=
  List.replicate 5 speechFrameS ++ List.replicate 30 silentFrameS ++ [silentFrameS]

/-- A capture in which speech is never detected: four silent 30 ms frames
(120 ms of audio, above the default 100 ms minimum duration). -/
def contFrames : List VadFrame := List.replicate 4 silentFrameS

/-! ## Helper lemmas -/

lemma len_flatten_replicate (n : Nat) (xs : List Int) :
    (List.flatten (List.replicate n xs)).length = n * xs.length := by
  induction n with
  | zero => simp
  | succ k ih => simp [List.replicate_succ, ih, Nat.succ_mul, Nat.add_comm]

/-- In mode `voice_activity_detection`, a capture without detected speech is
finalized to `None` whatever its duration (lines 326-335): either the
minimum-duration branch or the no-speech branch fires. -/
lemma vadFinalize_nospeech (sampleRate minDurationMs : Nat) (data : List Int) :
    vadFinalize "voice_activity_detection" sampleRate minDurationMs false data
      = none := by
  unfold vadFinalize
  split <;> simp

/-- A speech frame always resets the silence counter, marks speech detected,
keeps the frame, and (when the threshold is positive) does not stop capture. -/
lemma vadStep_speech (thresh : Nat) (st : VadState) (f : VadFrame)
    (hf : f.cls = FrameClass.speech) (ht : 0 < thresh) :
    vadStep thresh st f =
      ({ st with
          speechDetected := true,
          silentFrameCount := 0,
          recordingData := st.recordingData ++ f.samples,
          framesProcessed := st.framesProcessed + 1 }, false) := by
  have h1 : ¬ (thresh ≤ 0) := by omega
  simp [vadStep, hf, h1]

/-- A silence frame with speech already detected and the incremented counter
still below the threshold: counter incremented, frame kept, no stop. -/
lemma vadStep_silence_count (thresh : Nat) (st : VadState) (f : VadFrame)
    (hf : f.cls = FrameClass.silence) (hd : st.speechDetected = true)
    (hcnt : st.silentFrameCount + 1 < thresh) :
    vadStep thresh st f =
      ({ st with
          silentFrameCount := st.silentFrameCount + 1,
          recordingData := st.recordingData ++ f.samples,
          framesProcessed := st.framesProcessed + 1 }, false) := by
  have h1 : ¬ (thresh ≤ st.silentFrameCount + 1) := by omega
  simp [vadStep, hf, hd, h1]

/-- A silence frame with speech already detected whose incremented counter
reaches the threshold stops the capture. -/
lemma vadStep_silence_stop (thresh : Nat) (st : VadState) (f : VadFrame)
    (hf : f.cls = FrameClass.silence) (hd : st.speechDetected = true)
    (hcnt : thresh ≤ st.silentFrameCount + 1) :
    vadStep thresh st f =
      ({ st with
          silentFrameCount := st.silentFrameCount + 1,
          recordingData := st.recordingData ++ f.samples,
          framesProcessed := st.framesProcessed + 1 }, true) := by
  simp [vadStep, hf, hd, hcnt]

/-- A non-speech frame before any speech was detected, within the 30 s
window: counters unchanged, frame kept, no stop. -/
lemma vadStep_nospeech (thresh : Nat) (st : VadState) (f : VadFrame)
    (hf : f.cls ≠ FrameClass.speech) (hd : st.speechDetected = false)
    (hel : f.elapsedMs ≤ 30000) :
    vadStep thresh st f =
      ({ st with
          recordingData := st.recordingData ++ f.samples,
          framesProcessed := st.framesProcessed + 1 }, false) := by
  have h1 : ¬ (30000 < f.elapsedMs) := by omega
  cases hc : f.cls <;> simp_all [vadStep, hc, hd, h1]

/-- A non-speech frame before any speech was detected, past the 30 s window:
the safety timeout stops the capture. -/
lemma vadStep_timeout (thresh : Nat) (st : VadState) (f : VadFrame)
    (hf : f.cls ≠ FrameClass.speech) (hd : st.speechDetected = false)
    (hel : 30000 < f.elapsedMs) :
    vadStep thresh st f =
      ({ st with
          recordingData := st.recordingData ++ f.samples,
          framesProcessed := st.framesProcessed + 1 }, true) := by
  cases hc : f.cls <;> simp_all [vadStep, hc, hd, hel]

/-- Running the VAD loop over a prefix of non-speech frames inside the 30 s
window just accumulates them: speech stays undetected, the counter is
untouched, and the loop carries on. -/
lemma vadLoop_nospeech_run (thresh : Nat) :
    ∀ (pre : List VadFrame) (st : VadState) (tl : List VadFrame),
      st.speechDetected = false →
      (∀ f ∈ pre, f.cls ≠ FrameClass.speech ∧ f.elapsedMs ≤ 30000) →
      vadLoop thresh st (pre ++ tl) =
        vadLoop thresh
          ⟨false, st.silentFrameCount,
            st.recordingData ++ (pre.map (fun f => f.samples)).flatten,
            st.framesProcessed + pre.length⟩ tl := by
  intro pre
  induction pre with
  | nil =>
    intro st tl hd _
    rcases st with ⟨sd, cnt, data, fp⟩
    simp_all
  | cons f pre ih =>
    intro st tl hd hall
    have hf := hall f (by simp)
    have hstep := vadStep_nospeech thresh st f hf.1 hd hf.2
    have hrec :
        vadLoop thresh st ((f :: pre) ++ tl) =
          vadLoop thresh
            { st with
                recordingData := st.recordingData ++ f.samples,
                framesProcessed := st.framesProcessed + 1 } (pre ++ tl) := by
      simp [vadLoop, hstep]
    have hd1 :
        ({ st with
            recordingData := st.recordingData ++ f.samples,
            framesProcessed := st.framesProcessed + 1 } : VadState).speechDetected
          = false := hd
    rw [hrec,
      ih { st with
            recordingData := st.recordingData ++ f.samples,
            framesProcessed := st.framesProcessed + 1 } tl hd1
        (fun g hg => hall g (by simp [hg]))]
    have harith : st.framesProcessed + 1 + pre.length =
        st.framesProcessed + (pre.length + 1) := by omega
    simp [List.append_assoc, harith, hd]

/-- Running the VAD loop over a positive run of speech frames (with a
positive silence threshold) leaves speech detected, the counter reset, and
the loop carrying on. -/
lemma vadLoop_speech_run (thresh : Nat) (ht : 0 < thresh) (f : VadFrame)
    (hf : f.cls = FrameClass.speech) :
    ∀ (n : Nat) (st : VadState) (tl : List VadFrame), 0 < n →
      vadLoop thresh st (List.replicate n f ++ tl) =
        vadLoop thresh
          ⟨true, 0,
            st.recordingData ++ (List.replicate n f.samples).flatten,
            st.framesProcessed + n⟩ tl := by
  intro n
  induction n with
  | zero => intro st tl h; omega
  | succ k ih =>
    intro st tl _
    have hstep := vadStep_speech thresh st f hf ht
    have hrec :
        vadLoop thresh st (List.replicate (k + 1) f ++ tl) =
          vadLoop thresh
            { st with
                speechDetected := true,
                silentFrameCount := 0,
                recordingData := st.recordingData ++ f.samples,
                framesProcessed := st.framesProcessed + 1 }
            (List.replicate k f ++ tl) := by
      simp [List.replicate_succ, vadLoop, hstep]
    rcases Nat.eq_zero_or_pos k with hk | hk
    · subst hk
      rw [hrec]
      simp
    · rw [hrec, ih _ tl hk]
      have harith : st.framesProcessed + 1 + k = st.framesProcessed + (k + 1) := by
        omega
      simp [List.replicate_succ, List.append_assoc, harith]

/-- With speech detected and the counter at `thresh - j`, a run of exactly
`j` silence frames stops the capture exactly on its last frame, leaving any
following frames unconsumed. -/
lemma vadLoop_silence_countdown (thresh : Nat) (f : VadFrame)
    (hf : f.cls = FrameClass.silence) :
    ∀ (j : Nat) (st : VadState) (tl : List VadFrame), 0 < j →
      st.speechDetected = true → st.silentFrameCount + j = thresh →
      vadLoop thresh st (List.replicate j f ++ tl) =
        (⟨true, thresh,
           st.recordingData ++ (List.replicate j f.samples).flatten,
           st.framesProcessed + j⟩, true) := by
  intro j
  induction j with
  | zero => intro st tl h; omega
  | succ k ih =>
    intro st tl _ hd hcnt
    rcases Nat.eq_zero_or_pos k with hk | hk
    · subst hk
      have hstep := vadStep_silence_stop thresh st f hf hd (by omega)
      have hc1 : st.silentFrameCount + 1 = thresh := by omega
      simp [List.replicate_succ, vadLoop, hstep, hd, hc1]
    · have hstep := vadStep_silence_count thresh st f hf hd (by omega)
      have hrec :
          vadLoop thresh st (List.replicate (k + 1) f ++ tl) =
            vadLoop thresh
              { st with
                  silentFrameCount := st.silentFrameCount + 1,
                  recordingData := st.recordingData ++ f.samples,
                  framesProcessed := st.framesProcessed + 1 }
              (List.replicate k f ++ tl) := by
        simp [List.replicate_succ, vadLoop, hstep]
      have hd1 :
          ({ st with
              silentFrameCount := st.silentFrameCount + 1,
              recordingData := st.recordingData ++ f.samples,
              framesProcessed := st.framesProcessed + 1 } : VadState).speechDetected
            = true := hd
      have hcount :
          ({ st with
              silentFrameCount := st.silentFrameCount + 1,
              recordingData := st.recordingData ++ f.samples,
              framesProcessed := st.framesProcessed + 1 } : VadState).silentFrameCount
            + k = thresh := by
        simp
        omega
      rw [hrec,
        ih { st with
              silentFrameCount := st.silentFrameCount + 1,
              recordingData := st.recordingData ++ f.samples,
              framesProcessed := st.framesProcessed + 1 } tl hk hd1 hcount]
      have harith : st.framesProcessed + 1 + k = st.framesProcessed + (k + 1) := by
        omega
      simp [List.replicate_succ, List.append_assoc, harith]

/-- The recorded length never exceeds the current (possibly doubled)
capacity, provided each callback block fits in the initial capacity. -/
lemma directLoop_le_cap :
    ∀ (bs : List DirectBlock) (st : DirectState),
      st.framesRecorded ≤ st.bufferSize →
      (∀ b ∈ bs, b.samples.length ≤ st.bufferSize) →
      (directLoop st bs).framesRecorded ≤ (directLoop st bs).bufferSize := by
  intro bs
  induction bs with
  | nil => intro st h _; simpa [directLoop] using h
  | cons b bs ih =>
    intro st h hall
    by_cases hg : st.framesRecorded < st.bufferSize
    · have hb := hall b (by simp)
      have hcb : (directCallback st b).framesRecorded ≤ (directCallback st b).bufferSize
          ∧ st.bufferSize ≤ (directCallback st b).bufferSize := by
        unfold directCallback
        by_cases hr : b.ready
        · by_cases hover : st.framesRecorded + b.samples.length > st.bufferSize
          · simp [hr, hover]
            omega
          · simp [hr, hover]
            omega
        · simp [hr]
          omega
      have := ih (directCallback st b)
        hcb.1 (fun b' hb' => le_trans (hall b' (by simp [hb'])) hcb.2)
      simpa [directLoop, hg] using this
    · simpa [directLoop, hg] using h

/-- When every callback block carries exactly `s` samples and the capacity
is an exact multiple `s * m` with `s * j` samples already recorded, the loop
never expands the buffer and stops at `s * m` recorded samples at the
latest. -/
lemma directLoop_tiling :
    ∀ (bs : List DirectBlock) (s m j : Nat) (st : DirectState),
      st.bufferSize = s * m → st.framesRecorded = s * j → j ≤ m →
      (∀ b ∈ bs, b.samples.length = s) →
      (directLoop st bs).framesRecorded ≤ s * m := by
  intro bs
  induction bs with
  | nil =>
    intro s m j st hB hfr hj _
    simpa [directLoop, hfr] using Nat.mul_le_mul_left s hj
  | cons b bs ih =>
    intro s m j st hB hfr hj hall
    by_cases hg : st.framesRecorded < st.bufferSize
    · have hb := hall b (by simp)
      have hjm : j < m := by
        have := hg
        rw [hB, hfr] at this
        exact Nat.lt_of_mul_lt_mul_left this
      have hnoover : ¬ (st.framesRecorded + b.samples.length > st.bufferSize) := by
        rw [hB, hfr, hb]
        have : s * j + s = s * (j + 1) := by ring
        rw [this]
        simp
        exact Nat.mul_le_mul_left s hjm
      have hcb : directCallback st b =
          if !b.ready then st
          else { st with
                  data := st.data ++ b.samples,
                  framesRecorded := st.framesRecorded + b.samples.length } := by
        unfold directCallback
        by_cases hr : b.ready <;> simp [hr, hnoover]
      by_cases hr : b.ready
      · have hfr1 : st.framesRecorded + b.samples.length = s * (j + 1) := by
          rw [hfr, hb]; ring
        have := ih s m (j + 1)
          { st with
              data := st.data ++ b.samples,
              framesRecorded := st.framesRecorded + b.samples.length }
          (by simpa using hB) (by simpa using hfr1) hjm
          (fun b' hb' => hall b' (by simp [hb']))
        simpa [directLoop, hg, hcb, hr] using this
      · have := ih s m j st hB hfr hj (fun b' hb' => hall b' (by simp [hb']))
        simpa [directLoop, hg, hcb, hr] using this
    · have hle : st.framesRecorded ≤ s * m := by
        rw [hfr]; exact Nat.mul_le_mul_left s hj
      simpa [directLoop, hg] using hle

/-- The recorded data is exactly as long as the recorded-frames counter. -/
lemma directLoop_data_len :
    ∀ (bs : List DirectBlock) (st : DirectState),
      st.data.length = st.framesRecorded →
      (directLoop st bs).data.length = (directLoop st bs).framesRecorded := by
  intro bs
  induction bs with
  | nil => intro st h; simpa [directLoop] using h
  | cons b bs ih =>
    intro st h
    by_cases hg : st.framesRecorded < st.bufferSize
    · have hcb : (directCallback st b).data.length =
          (directCallback st b).framesRecorded := by
        unfold directCallback
        by_cases hr : b.ready
        · by_cases hover : st.framesRecorded + b.samples.length > st.bufferSize <;>
            simp [hr, hover, h]
        · simp [hr, h]
      have := ih (directCallback st b) hcb
      simpa [directLoop, hg] using this
    · simpa [directLoop, hg] using h

/-- Unfolding of `recordVad` on a successfully opened stream. -/
lemma recordVad_eq (recording_mode : String) (sampleRate minDurationMs thresh : Nat)
    (frames : List VadFrame) :
    recordVad true recording_mode sampleRate minDurationMs thresh frames =
      vadFinalize recording_mode sampleRate minDurationMs
        (vadLoop thresh vadInit frames).1.speechDetected
        (vadLoop thresh vadInit frames).1.recordingData := rfl

/-- Across any interleaving, what the worker has recorded (plus what is
still buffered) is an order-preserving subsequence of what arrived. -/
lemma hrun_sublist_aux (frameSize : Nat) :
    ∀ (tr : List HEv) (st : HState),
      ((hrun frameSize st tr).recorded ++ (hrun frameSize st tr).buf).Sublist
        (st.recorded ++ st.buf ++ arrivedSamples tr) := by
  intro tr
  induction tr with
  | nil => intro st; simp [hrun, arrivedSamples]
  | cons e es ih =>
    intro st
    cases e with
    | arrive xs =>
      have h1 : (hrun frameSize st (HEv.arrive xs :: es)) =
          hrun frameSize { st with buf := takeLastN frameSize (st.buf ++ xs) } es := by
        simp [hrun, hstep]
      rw [h1]
      have h2 := ih { st with buf := takeLastN frameSize (st.buf ++ xs) }
      have h3 : (st.recorded ++ takeLastN frameSize (st.buf ++ xs)
            ++ arrivedSamples es).Sublist
          (st.recorded ++ (st.buf ++ xs) ++ arrivedSamples es) := by
        exact ((List.Sublist.refl st.recorded).append
          (List.drop_sublist _ _)).append (List.Sublist.refl _)
      have h4 := h2.trans h3
      simpa [arrivedSamples, List.append_assoc] using h4
    | consume =>
      by_cases hlen : st.buf.length < frameSize
      · have h1 : hrun frameSize st (HEv.consume :: es) = hrun frameSize st es := by
          simp [hrun, hstep, hlen]
        rw [h1]
        simpa [arrivedSamples] using ih st
      · have h1 : hrun frameSize st (HEv.consume :: es) =
            hrun frameSize ⟨[], st.recorded ++ st.buf⟩ es := by
          simp [hrun, hstep, hlen]
        rw [h1]
        have h2 := ih ⟨[], st.recorded ++ st.buf⟩
        simpa [arrivedSamples, List.append_assoc] using h2

/-- Under the alternating schedule, with every block exactly one frame long,
nothing is ever dropped: the worker records exactly what arrived. -/
lemma hrun_alt_eq (frameSize : Nat) :
    ∀ (frames : List (List Int)) (st : HState), st.buf = [] →
      (∀ xs ∈ frames, xs.length = frameSize) →
      (hrun frameSize st (altTrace frames)).recorded =
        st.recorded ++ arrivedSamples (altTrace frames) := by
  intro frames
  induction frames with
  | nil => intro st _ _; simp [altTrace, hrun, arrivedSamples]
  | cons xs rest ih =>
    intro st hbuf hall
    have hx := hall xs (by simp)
    have h1 : hstep frameSize st (HEv.arrive xs) = { st with buf := xs } := by
      simp [hstep, hbuf, takeLastN, hx]
    have h2 : hstep frameSize { st with buf := xs } HEv.consume =
        ⟨[], st.recorded ++ xs⟩ := by
      simp [hstep, hx]
    have h3 : hrun frameSize st (altTrace (xs :: rest)) =
        hrun frameSize ⟨[], st.recorded ++ xs⟩ (altTrace rest) := by
      simp [altTrace, hrun, h1, h2]
    rw [h3, ih ⟨[], st.recorded ++ xs⟩ rfl (fun y hy => hall y (by simp [hy]))]
    simp [altTrace, arrivedSamples, List.append_assoc]

/-! ## Claim C1 -/

/-- Claim C1 counterexample: on the well-formed path where `stop()` (which
itself emits 'idle', line 64) lands while `transcribe` is in flight and the
transcription then raises (so `run` emits 'error' and an empty result,
lines 110-113), the session emits two terminal statuses, not exactly one. -/
theorem c1_ce :
    wfRun ⟨StopPoint.duringTranscribe, some [0], false, ""⟩ ∧
      countTerminal
        (sessionEmits ⟨StopPoint.duringTranscribe, some [0], false, ""⟩) = 2 := by
  constructor
  · intro _ h
    simp at h
  · rfl

/-- Claim C1 amended: at most one result payload is ever emitted, and
exactly one terminal status is emitted on every well-formed path except
those where `stop()` lands after the final `is_running` read of the path or
during a transcription that subsequently fails — there the shutdown 'idle'
and `run`'s own terminal status make two; two terminals can only happen when
`stop()` was invoked. -/
theorem c1_thm (i : RunInput) (h : wfRun i) :
    countResult (sessionEmits i) ≤ 1 ∧
      countTerminal (sessionEmits i) = (if doubleEmit i then 2 else 1) ∧
      (doubleEmit i = true → i.stopAt ≠ StopPoint.never) := by
  rcases i with ⟨sp, ar, tok, tr⟩
  cases sp <;> cases ar <;> cases tok <;>
    simp_all [wfRun, sessionEmits, runEmits, stopEmits, countTerminal,
      countResult, isTerminal, isResultEv, doubleEmit, runningAtStart,
      runningAfterRecord, runningAfterTranscribe]

theorem c1_wit :
    wfRun ⟨StopPoint.never, none, true, ""⟩ ∧
      (countResult (sessionEmits ⟨StopPoint.never, none, true, ""⟩) ≤ 1 ∧
        countTerminal (sessionEmits ⟨StopPoint.never, none, true, ""⟩) =
          (if doubleEmit ⟨StopPoint.never, none, true, ""⟩ then 2 else 1) ∧
        (doubleEmit ⟨StopPoint.never, none, true, ""⟩ = true →
          RunInput.stopAt ⟨StopPoint.never, none, true, ""⟩ ≠ StopPoint.never)) :=
  ⟨by intro h; simp at h, c1_thm ⟨StopPoint.never, none, true, ""⟩ (by intro h; simp at h)⟩

/-! ## Claim C2 -/

/-- Claim C2 counterexample: a capture in mode `continuous` — a VAD-loop
mode, since only `press_to_toggle` and `hold_to_record` take the direct
path (line 157) — that never detects speech is not discarded: 120 ms of
silent audio is finalized (the check at line 333 only applies to the mode
string `voice_activity_detection`), forwarded to the transcription
collaborator, and a result payload is emitted. -/
theorem c2_ce :
    (vadLoop 30 vadInit contFrames).1.speechDetected = false ∧
      (recordVad true "continuous" 16000 100 30 contFrames).isSome = true ∧
      Ev.status Status.transcribing ∈
        sessionEmits ⟨StopPoint.never,
          recordVad true "continuous" 16000 100 30 contFrames, true, "t"⟩ ∧
      Ev.result "t" ∈
        sessionEmits ⟨StopPoint.never,
          recordVad true "continuous" 16000 100 30 contFrames, true, "t"⟩ := by
  have hcls : silentFrameS.cls = FrameClass.silence := rfl
  have hel : silentFrameS.elapsedMs = 2000 := rfl
  have hsamp : silentFrameS.samples = List.replicate 480 0 := rfl
  have hall : ∀ f ∈ contFrames, f.cls ≠ FrameClass.speech ∧ f.elapsedMs ≤ 30000 := by
    intro f hf
    rw [contFrames, List.mem_replicate] at hf
    rw [hf.2, hcls, hel]
    refine ⟨?_, by omega⟩
    intro h
    cases h
  have hloop := vadLoop_nospeech_run 30 contFrames vadInit [] rfl hall
  simp only [List.append_nil] at hloop
  have hsd : (vadLoop 30 vadInit contFrames).1.speechDetected = false := by
    rw [hloop]; rfl
  have hlen :
      ((contFrames.map (fun f => f.samples)).flatten).length = 1920 := by
    simp only [contFrames, List.map_replicate]
    rw [hsamp, len_flatten_replicate, List.length_replicate]
  have hdata : (vadLoop 30 vadInit contFrames).1.recordingData =
      (contFrames.map (fun f => f.samples)).flatten := by
    rw [hloop]; rfl
  have hm : ("continuous" == "voice_activity_detection") = false := by decide
  have hfin : ∀ d : List Int, d.length = 1920 →
      vadFinalize "continuous" 16000 100 false d = some d := by
    intro d hd
    unfold vadFinalize
    rw [hd, hm]
    norm_num
  have hrecord :
      recordVad true "continuous" 16000 100 30 contFrames =
        some ((contFrames.map (fun f => f.samples)).flatten) := by
    rw [recordVad_eq, hsd, hdata]
    exact hfin _ hlen
  refine ⟨hsd, ?_, ?_, ?_⟩
  · simp [hrecord]
  · simp [hrecord, sessionEmits, runEmits, stopEmits, runningAtStart,
      runningAfterRecord, runningAfterTranscribe]
  · simp [hrecord, sessionEmits, runEmits, stopEmits, runningAtStart,
      runningAfterRecord, runningAfterTranscribe]

/-- Claim C2 amended: only in the mode whose string is exactly
`voice_activity_detection` is a capture without detected speech always
discarded (emitting 'idle', forwarding nothing, regardless of duration);
in mode `continuous`, which also runs the voice-activity loop, a no-speech
capture of sufficient duration is finalized and forwarded. -/
theorem c2_thm :
    (∀ (rate minD thresh : Nat) (frames : List VadFrame) (tOk : Bool) (tr : String),
      (vadLoop thresh vadInit frames).1.speechDetected = false →
      recordVad true "voice_activity_detection" rate minD thresh frames = none ∧
        sessionEmits ⟨StopPoint.never,
            recordVad true "voice_activity_detection" rate minD thresh frames,
            tOk, tr⟩ =
          [Ev.status Status.recording, Ev.status Status.idle]) ∧
    (∀ (rate minD thresh : Nat) (frames : List VadFrame),
      (vadLoop thresh vadInit frames).1.speechDetected = false →
      minD * rate ≤ ((vadLoop thresh vadInit frames).1.recordingData).length * 1000 →
      recordVad true "continuous" rate minD thresh frames =
        some (vadLoop thresh vadInit frames).1.recordingData) := by
  constructor
  · intro rate minD thresh frames tOk tr hns
    have hrec : recordVad true "voice_activity_detection" rate minD thresh frames
        = none := by
      rw [recordVad_eq, hns, vadFinalize_nospeech]
    rw [hrec]
    refine ⟨rfl, ?_⟩
    simp [sessionEmits, runEmits, stopEmits, runningAtStart, runningAfterRecord]
  · intro rate minD thresh frames hns hlen
    have hnlt :
        ¬ (((vadLoop thresh vadInit frames).1.recordingData).length * 1000
            < minD * rate) := by omega
    simp [recordVad, hns, vadFinalize, hnlt]

theorem c2_wit :
    ((vadLoop 30 vadInit []).1.speechDetected = false ∧
      recordVad true "voice_activity_detection" 16000 100 30 [] = none ∧
        sessionEmits ⟨StopPoint.never,
            recordVad true "voice_activity_detection" 16000 100 30 [], true, "t"⟩ =
          [Ev.status Status.recording, Ev.status Status.idle]) ∧
    recordVad true "continuous" 16000 0 30 [⟨FrameClass.silence, true, [0], 100⟩] =
      some (vadLoop 30 vadInit [⟨FrameClass.silence, true, [0], 100⟩]).1.recordingData :=
  ⟨⟨by decide,
    c2_thm.1 16000 100 30 [] true "t" (by decide)⟩,
   c2_thm.2 16000 0 30 [⟨FrameClass.silence, true, [0], 100⟩] (by decide)
     (by decide)⟩

/-! ## Claim C3 -/

/-- Claim C3 counterexample: on the VAD path a frame that arrives while the
session is still Armed (`ready_to_record = false`) is nonetheless written to
the output recording buffer — the loop at lines 268-314 never consults
`ready_to_record`. -/
theorem c3_ce :
    (vadLoop 30 vadInit [⟨FrameClass.silence, false, [1, 2], 100⟩]).1.recordingData
        = [1, 2] ∧
      (vadLoop 30 vadInit [⟨FrameClass.silence, false, [1, 2], 100⟩]).1.recordingData
        ≠ [] := by
  constructor <;> decide

/-- Claim C3 amended: only the direct-mode callback (lines 173-175) drops
frames that arrive before the ready signal; the VAD path appends every
frame to the recording buffer whether or not `ready_to_record` is set, so
its finalized buffer may contain pre-ready samples. -/
theorem c3_thm :
    (∀ (st : DirectState) (b : DirectBlock), b.ready = false →
      directCallback st b = st) ∧
    (∀ (thresh : Nat) (st : VadState) (f : VadFrame), f.ready = false →
      ((vadStep thresh st f).1).recordingData = st.recordingData ++ f.samples) := by
  constructor
  · intro st b hr
    simp [directCallback, hr]
  · intro thresh st f _
    rcases hc : f.cls <;>
      simp only [vadStep, hc] <;>
        split <;>
          first
            | rfl
            | (split <;> first | rfl | (split <;> rfl))

theorem c3_wit :
    directCallback ⟨10, 0, []⟩ ⟨false, [5, 6]⟩ = ⟨10, 0, []⟩ ∧
      ((vadStep 30 vadInit ⟨FrameClass.silence, false, [1, 2], 100⟩).1).recordingData
        = [] ++ [1, 2] :=
  ⟨c3_thm.1 ⟨10, 0, []⟩ ⟨false, [5, 6]⟩ rfl,
   c3_thm.2 30 vadInit ⟨FrameClass.silence, false, [1, 2], 100⟩ rfl⟩

/-! ## Claim C4 -/

/-- Claim C4 counterexample: with `maxDurationSeconds * sampleRate = 10` and
ready blocks of 3 samples, the fourth block triggers the capacity doubling
(lines 177-184), so the loop guard `frames_recorded < buffer_size`
(line 200) keeps passing and the finalized buffer reaches 15 > 10 samples:
capture does not stop at `maxDurationSeconds * sampleRate`. -/
theorem c4_ce :
    (directLoop (directInit 10)
        (List.replicate 5 (⟨true, [0, 0, 0]⟩ : DirectBlock))).framesRecorded = 15 ∧
      ((directLoop (directInit 10)
        (List.replicate 5 (⟨true, [0, 0, 0]⟩ : DirectBlock))).data).length = 15 ∧
      ¬ ((directLoop (directInit 10)
        (List.replicate 5 (⟨true, [0, 0, 0]⟩ : DirectBlock))).framesRecorded ≤ 10) := by
  refine ⟨?_, ?_, ?_⟩ <;> decide

/-- Claim C4 amended: the finalized direct-mode buffer length always equals
the recorded-frame counter and never exceeds the current capacity, but that
capacity starts at `maxDurationSeconds * sampleRate` and doubles whenever a
callback block would overflow it, so the `maxDurationSeconds * sampleRate`
bound itself only holds when the callback blocks exactly tile the initial
capacity (e.g. block size dividing it); in general capture stops only when
the recorded count reaches the current, possibly doubled, capacity. -/
theorem c4_thm :
    (∀ (st : DirectState) (bs : List DirectBlock),
      st.framesRecorded ≤ st.bufferSize →
      (∀ b ∈ bs, b.samples.length ≤ st.bufferSize) →
      (directLoop st bs).framesRecorded ≤ (directLoop st bs).bufferSize) ∧
    (∀ (s m : Nat) (bs : List DirectBlock),
      (∀ b ∈ bs, b.samples.length = s) →
      (directLoop (directInit (s * m)) bs).framesRecorded ≤ s * m) ∧
    (∀ (st : DirectState) (bs : List DirectBlock),
      st.data.length = st.framesRecorded →
      (directLoop st bs).data.length = (directLoop st bs).framesRecorded) := by
  refine ⟨?_, ?_, ?_⟩
  · intro st bs h hall
    exact directLoop_le_cap bs st h hall
  · intro s m bs hall
    exact directLoop_tiling bs s m 0 (directInit (s * m)) rfl (by simp [directInit])
      (by omega) hall
  · intro st bs h
    exact directLoop_data_len bs st h

theorem c4_wit :
    (directLoop (directInit 10)
        (List.replicate 5 (⟨true, [0, 0, 0]⟩ : DirectBlock))).framesRecorded ≤
      (directLoop (directInit 10)
        (List.replicate 5 (⟨true, [0, 0, 0]⟩ : DirectBlock))).bufferSize ∧
    (directLoop (directInit 6)
        (List.replicate 9 (⟨true, [0, 0]⟩ : DirectBlock))).framesRecorded ≤ 6 :=
  ⟨c4_thm.1 (directInit 10) (List.replicate 5 ⟨true, [0, 0, 0]⟩) (by decide)
      (by decide),
   c4_thm.2.1 2 3 (List.replicate 9 ⟨true, [0, 0]⟩) (by decide)⟩

/-! ## Claim C5 -/

/-- Claim C5 counterexample: when the input stream fails to open, the
exception is caught inside `_record_audio` (lines 221-223 and 339-343),
which returns `None`; `run` then emits 'idle' (lines 89-91), not 'error',
and no result payload at all — contradicting the claimed
`error` status with an empty result. -/
theorem c5_ce :
    Ev.status Status.error ∉
        sessionEmits ⟨StopPoint.never,
          recordDirect false 16000 100 (directInit 960000) [], true, ""⟩ ∧
      Ev.result "" ∉
        sessionEmits ⟨StopPoint.never,
          recordDirect false 16000 100 (directInit 960000) [], true, ""⟩ := by
  constructor <;> decide

/-- Claim C5 amended: a stream-open failure makes `_record_audio` return
`None` in both modes (the exception is caught locally), and the session then
resolves exactly like a discard: status 'recording' followed by 'idle', no
'error' status and no result payload. -/
theorem c5_thm (sampleRate minDurationMs : Nat) (st : DirectState)
    (blocks : List DirectBlock) (recording_mode : String) (thresh : Nat)
    (frames : List VadFrame) (tOk : Bool) (tr : String) :
    recordDirect false sampleRate minDurationMs st blocks = none ∧
      recordVad false recording_mode sampleRate minDurationMs thresh frames = none ∧
      sessionEmits ⟨StopPoint.never,
          recordDirect false sampleRate minDurationMs st blocks, tOk, tr⟩ =
        [Ev.status Status.recording, Ev.status Status.idle] ∧
      countResult (sessionEmits ⟨StopPoint.never,
          recordDirect false sampleRate minDurationMs st blocks, tOk, tr⟩) = 0 := by
  refine ⟨rfl, rfl, ?_, ?_⟩ <;>
    simp [sessionEmits, runEmits, stopEmits, recordDirect, countResult,
      isResultEv, runningAtStart, runningAfterRecord]

/-! ## Claim C6 -/

/-- Claim C6 counterexample: the code computes the silence stop threshold as
`int(silence_duration_ms / 30.0)` (line 233), a truncation, not a rounding:
for `silence_duration = 950` the code uses 31 frames while
`round(950 / 30) = 32`. -/
theorem c6_ce :
    silenceFramesOf 950 = 31 ∧ specRoundThreshold 950 = 32 ∧
      silenceFramesOf 950 ≠ specRoundThreshold 950 := by
  refine ⟨?_, ?_, ?_⟩ <;> decide

/-- Claim C6 amended: the silence stop threshold is
`floor(silenceDurationMs / 30)` (truncating division, not rounding); after
speech is detected each silence frame increments the consecutive-silence
counter, any speech frame resets it to 0 and marks speech detected, and
capture stops exactly when the incremented counter reaches the threshold.
For `silenceDuration = 900` ms (threshold 30, where floor and round agree)
the scenario holds as claimed: 5 speech frames followed by 30 silent frames
stop capture exactly after the 30th silent frame (a following frame is not
consumed, 35 frames processed in all) and the session completes, emitting
the transcription result. -/
theorem c6_thm :
    (∀ s : Nat, 30 * silenceFramesOf s ≤ s ∧ s < 30 * (silenceFramesOf s + 1)) ∧
    (∀ (thresh : Nat) (st : VadState) (f : VadFrame),
      f.cls = FrameClass.silence → st.speechDetected = true →
      st.silentFrameCount + 1 < thresh →
      vadStep thresh st f =
        ({ st with
            silentFrameCount := st.silentFrameCount + 1,
            recordingData := st.recordingData ++ f.samples,
            framesProcessed := st.framesProcessed + 1 }, false)) ∧
    (∀ (thresh : Nat) (st : VadState) (f : VadFrame),
      f.cls = FrameClass.speech → 0 < thresh →
      vadStep thresh st f =
        ({ st with
            speechDetected := true,
            silentFrameCount := 0,
            recordingData := st.recordingData ++ f.samples,
            framesProcessed := st.framesProcessed + 1 }, false)) ∧
    (∀ (thresh : Nat) (st : VadState) (f : VadFrame),
      f.cls = FrameClass.silence → st.speechDetected = true →
      thresh ≤ st.silentFrameCount + 1 →
      (vadStep thresh st f).2 = true) ∧
    (silenceFramesOf 900 = 30 ∧
      (vadLoop 30 vadInit scenFrames).2 = true ∧
      (vadLoop 30 vadInit scenFrames).1.framesProcessed = 35 ∧
      (∀ tr : String,
        sessionEmits ⟨StopPoint.never,
            recordVad true "voice_activity_detection" 16000 100 30 scenFrames,
            true, tr⟩ =
          [Ev.status Status.recording, Ev.status Status.transcribing,
            Ev.status Status.idle, Ev.result tr])) := by
  have hsp : speechFrameS.cls = FrameClass.speech := rfl
  have hsl : silentFrameS.cls = FrameClass.silence := rfl
  have hspS : speechFrameS.samples = List.replicate 480 0 := rfl
  have hslS : silentFrameS.samples = List.replicate 480 0 := rfl
  have run1 := vadLoop_speech_run 30 (by omega) speechFrameS hsp 5 vadInit
    (List.replicate 30 silentFrameS ++ [silentFrameS]) (by omega)
  have run2 := vadLoop_silence_countdown 30 silentFrameS hsl 30
    ⟨true, 0,
      vadInit.recordingData ++ (List.replicate 5 speechFrameS.samples).flatten,
      vadInit.framesProcessed + 5⟩ [silentFrameS] (by omega) rfl (by norm_num)
  have hfinal : vadLoop 30 vadInit scenFrames =
      (⟨true, 30,
        (vadInit.recordingData ++ (List.replicate 5 speechFrameS.samples).flatten)
          ++ (List.replicate 30 silentFrameS.samples).flatten,
        vadInit.framesProcessed + 5 + 30⟩, true) := by
    show vadLoop 30 vadInit
        (List.replicate 5 speechFrameS ++
          (List.replicate 30 silentFrameS ++ [silentFrameS])) = _
    rw [run1, run2]
  have hsdF : (vadLoop 30 vadInit scenFrames).1.speechDetected = true := by
    rw [hfinal]
  have hdataF : (vadLoop 30 vadInit scenFrames).1.recordingData =
      (vadInit.recordingData ++ (List.replicate 5 speechFrameS.samples).flatten)
        ++ (List.replicate 30 silentFrameS.samples).flatten := by
    rw [hfinal]
  have hlenF :
      (((vadInit.recordingData ++ (List.replicate 5 speechFrameS.samples).flatten)
          ++ (List.replicate 30 silentFrameS.samples).flatten)).length = 16800 := by
    rw [hspS, hslS]
    simp only [List.length_append, len_flatten_replicate, List.length_replicate,
      vadInit, List.length_nil]
  have hm2 : ("voice_activity_detection" == "voice_activity_detection") = true := by
    decide
  have hfin : ∀ d : List Int, d.length = 16800 →
      vadFinalize "voice_activity_detection" 16000 100 true d = some d := by
    intro d hd
    unfold vadFinalize
    rw [hd, hm2]
    norm_num
  have hrecordS :
      recordVad true "voice_activity_detection" 16000 100 30 scenFrames =
        some ((vadInit.recordingData
            ++ (List.replicate 5 speechFrameS.samples).flatten)
          ++ (List.replicate 30 silentFrameS.samples).flatten) := by
    rw [recordVad_eq, hsdF, hdataF]
    exact hfin _ hlenF
  refine ⟨?_, ?_, ?_, ?_, ?_, ?_, ?_, ?_⟩
  · intro s
    unfold silenceFramesOf
    omega
  · intro thresh st f hf hd hcnt
    exact vadStep_silence_count thresh st f hf hd hcnt
  · intro thresh st f hf ht
    exact vadStep_speech thresh st f hf ht
  · intro thresh st f hf hd hcnt
    rw [vadStep_silence_stop thresh st f hf hd hcnt]
  · decide
  · rw [hfinal]
  · rw [hfinal]
    show vadInit.framesProcessed + 5 + 30 = 35
    decide
  · intro tr
    rw [hrecordS]
    simp [sessionEmits, runEmits, stopEmits, runningAtStart,
      runningAfterRecord, runningAfterTranscribe]

theorem c6_wit :
    (30 * silenceFramesOf 95 ≤ 95 ∧ 95 < 30 * (silenceFramesOf 95 + 1)) ∧
      vadStep 30 ⟨true, 3, [7], 9⟩ ⟨FrameClass.silence, true, [5], 100⟩ =
        (⟨true, 4, [7, 5], 10⟩, false) ∧
      vadStep 30 ⟨false, 0, [], 0⟩ ⟨FrameClass.speech, true, [5], 100⟩ =
        (⟨true, 0, [5], 1⟩, false) ∧
      (vadStep 30 ⟨true, 29, [], 34⟩ ⟨FrameClass.silence, true, [5], 100⟩).2 = true :=
  ⟨c6_thm.1 95,
   c6_thm.2.1 30 ⟨true, 3, [7], 9⟩ ⟨FrameClass.silence, true, [5], 100⟩ rfl rfl
     (by norm_num),
   c6_thm.2.2.1 30 ⟨false, 0, [], 0⟩ ⟨FrameClass.speech, true, [5], 100⟩ rfl
     (by norm_num),
   c6_thm.2.2.2.1 30 ⟨true, 29, [], 34⟩ ⟨FrameClass.silence, true, [5], 100⟩ rfl rfl
     (by norm_num)⟩

/-! ## Claim C7 -/

/-- Claim C7, settled for mode `voice_activity_detection` (the VAD mode that
possesses the NoSpeechDetected discard path, lines 332-335): if the safety
window elapses with no speech detected — every consumed frame non-speech and
one frame arriving past the 30 s mark (line 312) — then the loop stops
unconditionally on that frame (any later frames are never consumed),
`speechDetected` is false at finalization, the capture is discarded to
`None`, and the session emits 'idle' with no result. -/
theorem c7_thm (rate minD thresh : Nat) (pre rest : List VadFrame)
    (f0 : VadFrame) (tOk : Bool) (tr : String)
    (hpre : ∀ f ∈ pre, f.cls ≠ FrameClass.speech ∧ f.elapsedMs ≤ 30000)
    (hf0 : f0.cls ≠ FrameClass.speech) (hel : 30000 < f0.elapsedMs) :
    (vadLoop thresh vadInit (pre ++ f0 :: rest)).2 = true ∧
      (vadLoop thresh vadInit (pre ++ f0 :: rest)).1.speechDetected = false ∧
      (vadLoop thresh vadInit (pre ++ f0 :: rest)).1.framesProcessed =
        pre.length + 1 ∧
      recordVad true "voice_activity_detection" rate minD thresh
        (pre ++ f0 :: rest) = none ∧
      sessionEmits ⟨StopPoint.never,
          recordVad true "voice_activity_detection" rate minD thresh
            (pre ++ f0 :: rest), tOk, tr⟩ =
        [Ev.status Status.recording, Ev.status Status.idle] := by
  have hrun := vadLoop_nospeech_run thresh pre vadInit (f0 :: rest) rfl hpre
  have hstep := vadStep_timeout thresh
    ⟨false, vadInit.silentFrameCount,
      vadInit.recordingData ++ (pre.map (fun f => f.samples)).flatten,
      vadInit.framesProcessed + pre.length⟩ f0 hf0 rfl hel
  have hloopfin : vadLoop thresh vadInit (pre ++ f0 :: rest) =
      (⟨false, vadInit.silentFrameCount,
        (vadInit.recordingData ++ (pre.map (fun f => f.samples)).flatten)
          ++ f0.samples,
        vadInit.framesProcessed + pre.length + 1⟩, true) := by
    rw [hrun]
    simp [vadLoop, hstep]
  have hsd : (vadLoop thresh vadInit (pre ++ f0 :: rest)).1.speechDetected
      = false := by
    rw [hloopfin]
  have hnone : recordVad true "voice_activity_detection" rate minD thresh
      (pre ++ f0 :: rest) = none := by
    rw [recordVad_eq, hsd, vadFinalize_nospeech]
  refine ⟨by rw [hloopfin], hsd, ?_, hnone, ?_⟩
  · rw [hloopfin]
    show vadInit.framesProcessed + pre.length + 1 = pre.length + 1
    simp [vadInit]
  · rw [hnone]
    simp [sessionEmits, runEmits, stopEmits, runningAtStart, runningAfterRecord]

theorem c7_wit :
    (vadLoop 30 vadInit
        ([] ++ ⟨FrameClass.silence, true, [0], 30001⟩ :: [])).2 = true ∧
      (vadLoop 30 vadInit
        ([] ++ ⟨FrameClass.silence, true, [0], 30001⟩ :: [])).1.speechDetected
        = false ∧
      (vadLoop 30 vadInit
        ([] ++ ⟨FrameClass.silence, true, [0], 30001⟩ :: [])).1.framesProcessed
        = ([] : List VadFrame).length + 1 ∧
      recordVad true "voice_activity_detection" 16000 100 30
        ([] ++ ⟨FrameClass.silence, true, [0], 30001⟩ :: []) = none ∧
      sessionEmits ⟨StopPoint.never,
          recordVad true "voice_activity_detection" 16000 100 30
            ([] ++ ⟨FrameClass.silence, true, [0], 30001⟩ :: []), true, "x"⟩ =
        [Ev.status Status.recording, Ev.status Status.idle] :=
  c7_thm 16000 100 30 [] [] ⟨FrameClass.silence, true, [0], 30001⟩ true "x"
    (by simp) (by decide) (by decide)

/-! ## Claim C8 -/

/-- Claim C8: when the classifier raises on a frame (`vadError`, caught at
lines 306-308), the frame has already been appended to the recording buffer
(line 282), `speechDetected` and the consecutive-silence counter stay
unchanged, and the loop does not stop because of the failure — the only
remaining stop source on such a frame is the independent 30 s no-speech
timeout. -/
theorem c8_thm (thresh : Nat) (st : VadState) (f : VadFrame)
    (hf : f.cls = FrameClass.vadError) :
    vadStep thresh st f =
      ({ st with
          recordingData := st.recordingData ++ f.samples,
          framesProcessed := st.framesProcessed + 1 },
        decide (30000 < f.elapsedMs) && !st.speechDetected) ∧
      (f.elapsedMs ≤ 30000 → (vadStep thresh st f).2 = false) := by
  constructor
  · by_cases hel : 30000 < f.elapsedMs <;>
      by_cases hsd : st.speechDetected <;>
        simp [vadStep, hf, hel, hsd]
  · intro h
    have hel : ¬ (30000 < f.elapsedMs) := by omega
    by_cases hsd : st.speechDetected <;> simp [vadStep, hf, hel, hsd]

theorem c8_wit :
    vadStep 30 ⟨true, 2, [7], 4⟩ ⟨FrameClass.vadError, true, [9], 100⟩ =
      (⟨true, 2, [7, 9], 5⟩, false) ∧
      (100 ≤ 30000 →
        (vadStep 30 ⟨true, 2, [7], 4⟩ ⟨FrameClass.vadError, true, [9], 100⟩).2
          = false) :=
  c8_thm 30 ⟨true, 2, [7], 4⟩ ⟨FrameClass.vadError, true, [9], 100⟩ rfl

/-! ## Claim C9 -/

/-- Claim C9 counterexample: the handoff buffer is a deque bounded at one
frame (`maxlen = frame_size`, line 247); when the callback fires twice
before the worker consumes, the first frame's samples are evicted and lost:
with `frame_size = 2`, arrivals `[1, 2]` then `[3, 4]` followed by one
worker iteration record only `[3, 4]`, not all four delivered samples. -/
theorem c9_ce :
    (hrun 2 ⟨[], []⟩
        [HEv.arrive [1, 2], HEv.arrive [3, 4], HEv.consume]).recorded = [3, 4] ∧
      arrivedSamples [HEv.arrive [1, 2], HEv.arrive [3, 4], HEv.consume] =
        [1, 2, 3, 4] ∧
      (hrun 2 ⟨[], []⟩
          [HEv.arrive [1, 2], HEv.arrive [3, 4], HEv.consume]).recorded ≠
        arrivedSamples [HEv.arrive [1, 2], HEv.arrive [3, 4], HEv.consume] := by
  refine ⟨?_, ?_, ?_⟩ <;> decide

/-- Claim C9 amended: across every interleaving of the callback and worker
threads the recorded samples form an order-preserving subsequence of the
delivered samples (no reordering), and under the schedule in which the
worker consumes after every callback (each block exactly one frame long)
nothing is dropped; but when the callback fires more than once before the
worker consumes, the bounded handoff deque evicts the oldest samples, so
samples can be dropped. -/
theorem c9_thm :
    (∀ (frameSize : Nat) (tr : List HEv),
      ((hrun frameSize ⟨[], []⟩ tr).recorded).Sublist (arrivedSamples tr)) ∧
    (∀ (frameSize : Nat) (frames : List (List Int)),
      (∀ xs ∈ frames, xs.length = frameSize) →
      (hrun frameSize ⟨[], []⟩ (altTrace frames)).recorded =
        arrivedSamples (altTrace frames)) := by
  constructor
  · intro fs tr
    have h := hrun_sublist_aux fs tr ⟨[], []⟩
    have h2 : ((hrun fs ⟨[], []⟩ tr).recorded).Sublist
        ((hrun fs ⟨[], []⟩ tr).recorded ++ (hrun fs ⟨[], []⟩ tr).buf) :=
      List.sublist_append_left _ _
    simpa using h2.trans h
  · intro fs frames hall
    simpa using hrun_alt_eq fs frames ⟨[], []⟩ rfl hall

theorem c9_wit :
    (hrun 2 ⟨[], []⟩ (altTrace [[1, 2], [3, 4]])).recorded =
      arrivedSamples (altTrace [[1, 2], [3, 4]]) :=
  c9_thm.2 2 [[1, 2], [3, 4]] (by decide)

/-! ## Claim C10 -/

/-- Claim C10: whatever path `run` takes — including the path that returns
before touching the flags — and whatever a concurrent `set_ready` or
external `stop_recording` did meanwhile, the `finally` clause (lines
114-115) runs `stop_recording`, so after `run` returns both `is_recording`
and `ready_to_record` are false. -/
theorem c10_thm (i : RunInput) (readyDuring externalStop : Bool) :
    runFinalFlags i readyDuring externalStop = ⟨false, false⟩ ∧
      (runFinalFlags i readyDuring externalStop).is_recording = false ∧
      (runFinalFlags i readyDuring externalStop).ready_to_record = false :=
  ⟨rfl, rfl, rfl⟩

end WhisperWriter
